import Mathlib

/-!
Shallow embedding of the test-execution and validation engine of the
UnitApiTester repository (`src/weather_api_tester.py`, class `WeatherAPITester`).

Python values that can result from `json.loads` are modelled by `PyVal`.
The HTTP client is modelled by explicit outcome lists: each element describes
what one `session.get` call would deliver (a response with status, parsed JSON
body, raw text and the wall-clock elapsed milliseconds at that moment, or a
raised transport fault).  Wall-clock readings enter only through these outcome
values and through explicit elapsed-time parameters, mirroring the calls to
`time.time()` in the source.
-/

/-- Model of a parsed-JSON Python value (the possible results of `json.loads`):
`None`, `bool`, `int`, `float` (modelled as a rational, exact for every IEEE
double), `str`, `list`, and `dict` with string keys.  A `dict` is an
association list in insertion order with pairwise distinct keys, as Python
dictionaries are. -/
inductive PyVal where
  | none : PyVal
  | bool : Bool → PyVal
  | int : Int → PyVal
  | float : ℚ → PyVal
  | str : String → PyVal
  | list : List PyVal → PyVal
  | dict : List (String × PyVal) → PyVal

/-- Python whitespace characters stripped by `str.strip()` (the ASCII ones;
the source only ever strips ASCII city strings). -/
def pyIsSpace (c : Char) : Bool :=
  c = ' ' ∨ c = '\t' ∨ c = '\n' ∨ c = '\r' ∨ c = '\x0b' ∨ c = '\x0c'

/-- Python `s.strip()`: drop leading and trailing whitespace. -/
def pyStrip (s : String) : String :=
  String.mk (((s.data.dropWhile pyIsSpace).reverse.dropWhile pyIsSpace).reverse)

/-- Python `s.rstrip("/")`, applied to the base URL in `__init__`. -/
def rstripSlash (s : String) : String :=
  String.mk ((s.data.reverse.dropWhile (fun c => c = '/')).reverse)

/-- Round to the nearest integer, ties to even: the rounding mode of Python
`round` (the binary-float representation error of the argument is not
modelled). -/
def roundHalfEven (q : ℚ) : ℤ :=
  let f := ⌊q⌋
  let frac := q - (f : ℚ)
  if frac < 1 / 2 then f
  else if 1 / 2 < frac then f + 1
  else if f % 2 = 0 then f else f + 1

/-- Python `round(x, 2)`. -/
def pyRound2 (q : ℚ) : ℚ :=
  ((roundHalfEven (q * 100) : ℚ)) / 100

/-- Lower-case hexadecimal digit, also reused as a decimal digit for `n < 10`. -/
def hexDigit (n : Nat) : Char :=
  if n < 10 then Char.ofNat (48 + n) else Char.ofNat (87 + n)

/-- Four lower-case hex digits, as in the `\uXXXX` escapes of `json.dumps`. -/
def hex4 (n : Nat) : String :=
  String.mk [hexDigit (n / 4096 % 16), hexDigit (n / 256 % 16),
             hexDigit (n / 16 % 16), hexDigit (n % 16)]

/-- Escape one character of a JSON string the way `json.dumps` (default
`ensure_ascii=True`) does: the two-character shortcuts, `\uXXXX` for other
control and non-ASCII characters, surrogate pairs above the BMP. -/
def escCharJson (c : Char) : String :=
  if c = '"' then "\\\""
  else if c = '\\' then "\\\\"
  else if c = '\n' then "\\n"
  else if c = '\t' then "\\t"
  else if c = '\r' then "\\r"
  else if c = '\x08' then "\\b"
  else if c = '\x0c' then "\\f"
  else if c.toNat < 0x20 ∨ 0x7e < c.toNat then
    if c.toNat < 0x10000 then "\\u" ++ hex4 c.toNat
    else
      let m := c.toNat - 0x10000
      "\\u" ++ hex4 (0xd800 + m / 0x400) ++ "\\u" ++ hex4 (0xdc00 + m % 0x400)
  else String.singleton c

/-- Decimal digits of the fractional part of `r / d`, at most `fuel` of them
(exact whenever the expansion terminates within `fuel` digits). -/
def fracDigits : Nat → Nat → Nat → List Char
  | 0, _, _ => []
  | _ + 1, 0, _ => []
  | fuel + 1, r, d => hexDigit (r * 10 / d) :: fracDigits fuel (r * 10 % d) d

/-- Decimal rendering of a Python `float` held as a rational: sign, integer
part, point, fractional digits (`".0"` when the value is integral).  This
approximates the shortest-round-trip `repr` of CPython; it is exact for the
decimally-terminating values that appear in this development. -/
def floatRepr (q : ℚ) : String :=
  let sign := if q < 0 then "-" else ""
  let n := q.num.natAbs
  let d := q.den
  let frac := fracDigits 17 (n % d) d
  sign ++ toString (n / d) ++ "." ++ (if frac.isEmpty then "0" else String.mk frac)

/-- Python `isinstance(v, (int, float))`.  A Python `bool` is a subclass of
`int`, so booleans satisfy this check. -/
def pyIsNumeric : PyVal → Bool
  | .bool _ => true
  | .int _ => true
  | .float _ => true
  | _ => false

/-- Numeric value used by Python comparisons on an `int`/`float`/`bool`
(`True == 1`, `False == 0`); zero on the other constructors, where the
source never compares. -/
def pyNumVal : PyVal → ℚ
  | .bool b => if b then 1 else 0
  | .int n => (n : ℚ)
  | .float q => q
  | _ => 0

/-- Python `str(v)` for the values that can reach the temperature warning
(the branch is guarded by the `isinstance(v, (int, float))` check, so only
`bool`, `int` and `float` occur there). -/
def pyNumStr : PyVal → String
  | .bool b => if b then "True" else "False"
  | .int n => toString n
  | .float q => floatRepr q
  | _ => ""

/-- Whether `needle` occurs as a contiguous run inside `hay` (Python
`needle in hay` on strings, over the character lists). -/
def listHasSub (needle hay : List Char) : Bool :=
  (List.range (hay.length + 1)).any (fun i => needle.isPrefixOf (hay.drop i))

/-- Model of `json.dumps` with the default separators `", "` and `": "` and
default `ensure_ascii=True`. -/
def pyDumps : PyVal → String
  | .none => "null"
  | .bool true => "true"
  | .bool false => "false"
  | .int n => toString n
  | .float q => floatRepr q
  | .str s => "\"" ++ String.join (s.data.map escCharJson) ++ "\""
  | .list xs => "[" ++ String.intercalate ", " (xs.attach.map (fun x => pyDumps x.1)) ++ "]"
  | .dict kvs =>
      "\x7b" ++
        String.intercalate ", "
          (kvs.attach.map (fun kv =>
            "\"" ++ String.join (kv.1.1.data.map escCharJson) ++ "\": " ++ pyDumps kv.1.2)) ++
      "\x7d"
decreasing_by
  · simp_wf
    have h := List.sizeOf_lt_of_mem x.2
    omega
  · simp_wf
    have h := List.sizeOf_lt_of_mem kv.2
    have h2 : sizeOf kv.1.2 < sizeOf kv.1 := by
      obtain ⟨⟨a, b⟩, hm⟩ := kv
      simp
    omega

/-- The prober's evidence test on a parsed health/info body
(`weather_api_tester.py:136`): serialize the whole body with `json.dumps`,
lower-case it, and require both substrings `"weather"` and `"endpoint"`. -/
def containsWeatherEndpoint (data : PyVal) : Bool :=
  let response_text := (pyDumps data).toLower
  listHasSub "weather".data response_text.data &&
    listHasSub "endpoint".data response_text.data

/-- Result of `validate_weather_response`
(`weather_api_tester.py:203`): the dict built at line 204. -/
structure ValidationReport where
  is_valid : Bool
  errors : List String
  warnings : List String
  found_fields : List String

/-- Keys of a modelled Python dict, in insertion order (`data.keys()`). -/
def pyKeys (entries : List (String × PyVal)) : List String :=
  entries.map Prod.fst

/-- Python `field in data` on a dict. -/
def pyHasKey (entries : List (String × PyVal)) (field : String) : Bool :=
  (pyKeys entries).contains field

/-- Python `data[field]` on a dict; keys are pairwise distinct, so the first
match is the binding. -/
def pyGet (entries : List (String × PyVal)) (field : String) : Option PyVal :=
  List.lookup field entries

/-- Whether a value is a Python string that is non-empty after `strip()`;
its negation is the test `not isinstance(v, str) or len(v.strip()) == 0`
used for the `description` and `city` fields. -/
def pyNonBlankStr : PyVal → Bool
  | .str s => !(pyStrip s = "")
  | _ => false

/-- The `missing_fields` list computed by the loop of
`weather_api_tester.py:217-222`: those of the required fields `city`,
`temperature`, `description` (in that fixed order) absent from the data. -/
def missingRequired (entries : List (String × PyVal)) : List String :=
  ["city", "temperature", "description"].filter (fun f => !pyHasKey entries f)

/-- Direct translation of `WeatherAPITester.validate_weather_response`
(`weather_api_tester.py:203-251`): build the report with `is_valid = true`
and the top-level keys as `found_fields`; short-circuit on non-dict input;
then the missing-required-fields check, the temperature check, the
description check and the city check, each appending in source order. -/
def validate_weather_response (data : PyVal) (city : String) (test_type : String) :
    ValidationReport :=
  let validation : ValidationReport :=
    { is_valid := true, errors := [], warnings := [],
      found_fields := match data with | .dict entries => pyKeys entries | _ => [] }
  match data with
  | .dict entries =>
    let missing_fields := missingRequired entries
    let v1 :=
      if missing_fields = [] then validation
      else
        { validation with
            errors := validation.errors ++
              ["Missing required fields: " ++ String.intercalate ", " missing_fields],
            is_valid := false }
    let v2 :=
      match pyGet entries "temperature" with
      | Option.none => v1
      | Option.some temp =>
        if pyIsNumeric temp = false then
          { v1 with errors := v1.errors ++ ["Temperature is not numeric"],
                    is_valid := false }
        else if pyNumVal temp < -100 ∨ 70 < pyNumVal temp then
          { v1 with warnings := v1.warnings ++
              ["Temperature " ++ pyNumStr temp ++ "°C seems extreme"] }
        else v1
    let v3 :=
      match pyGet entries "description" with
      | Option.none => v2
      | Option.some desc =>
        if pyNonBlankStr desc = false then
          { v2 with errors := v2.errors ++ ["Weather description is empty or invalid"],
                    is_valid := false }
        else v2
    let v4 :=
      match pyGet entries "city" with
      | Option.none => v3
      | Option.some returned_city =>
        if pyNonBlankStr returned_city = false then
          { v3 with errors := v3.errors ++ ["City name is empty or invalid"],
                    is_valid := false }
        else v3
    v4
  | _ =>
    { validation with errors := validation.errors ++ ["Response is not a JSON object"],
                      is_valid := false }

/-- Contents of the `validation_results` field of a `TestResult`: the empty
dict it is initialised to (line 58), the full validator report (line 85), or
one of the three literal dicts of `create_mock_test_result`
(`is_valid` / `errors` / `note`). -/
inductive ValResults where
  | empty : ValResults
  | report : ValidationReport → ValResults
  | mock : Bool → List String → String → ValResults

/-- The `is_valid` entry of a `validation_results` value, when present. -/
def valResultsIsValid : ValResults → Option Bool
  | .empty => Option.none
  | .report r => Option.some r.is_valid
  | .mock b _ _ => Option.some b

/-- The result dict built by `test_api_endpoint` (`weather_api_tester.py:48`).
`timestamp` is the `datetime.now().isoformat()` string, supplied by the
clock; `response_time_ms` is held as an exact rational. -/
structure TestResult where
  timestamp : String
  city : String
  test_type : String
  passed : Bool
  api_endpoint : Option String
  status_code : Option Nat
  response_time_ms : ℚ
  response_data : Option PyVal
  errors : List String
  validation_results : ValResults

/-- The three transport faults `session.get` can raise that the dispatcher
distinguishes: `requests.exceptions.Timeout`, `requests.exceptions.ConnectionError`,
and any other `Exception` (carrying its `str(e)` text). -/
inductive Fault where
  | timeout : Fault
  | connError : Fault
  | otherError : String → Fault

/-- What one `session.get` call of the dispatcher delivers.
`response status body text elapsedMs`: an HTTP response with the given status,
the parsed JSON body (`Option.none` when the body is not valid JSON, making
`response.json()` raise), the raw `response.text`, and the value of
`(time.time() - start_time) * 1000` at the moment the response is in hand.
`fault f elapsedMs`: the call raised `f`; the elapsed clock value at that
moment is carried for specification purposes only — the source code never
reads the clock in its exception handlers. -/
inductive HttpOutcome where
  | response : Nat → Option PyVal → String → ℚ → HttpOutcome
  | fault : Fault → ℚ → HttpOutcome

/-- Wall-clock elapsed milliseconds at the moment an outcome is delivered. -/
def outcomeElapsed : HttpOutcome → ℚ
  | .response _ _ _ e => e
  | .fault _ e => e

/-- What one `session.get` call of the prober delivers: a response (status and
parsed JSON body, `Option.none` when `response.json()` would raise), or any
raised exception (all are swallowed by the bare `except`). -/
inductive ProbeOutcome where
  | response : Nat → Option PyVal → ProbeOutcome
  | fault : ProbeOutcome

/-- The `self.valid_cities` list of `WeatherAPITester.__init__`
(`weather_api_tester.py:15-23`). -/
def valid_cities : List String :=
  ["London", "New York", "Tokyo", "Paris", "Berlin", "Sydney", "Mumbai", "Cairo",
   "Moscow", "Beijing", "Rome", "Madrid", "Toronto", "Bangkok", "Seoul", "Dubai",
   "Singapore", "Amsterdam", "Stockholm", "Vienna", "Prague", "Budapest", "Warsaw",
   "Helsinki", "Oslo", "Copenhagen", "Zurich", "Brussels", "Lisbon", "Athens",
   "Istanbul", "Delhi", "Bangalore", "Chennai", "Los Angeles", "Chicago", "Houston",
   "Phoenix", "Philadelphia", "San Antonio", "San Diego", "Dallas", "San Jose",
   "Austin", "Jacksonville", "Fort Worth", "Columbus", "Charlotte", "Seattle", "Denver"]

/-- The `self.invalid_cities` list of `WeatherAPITester.__init__`
(`weather_api_tester.py:25-29`); exposed reference data, not consulted by the
dispatcher logic itself. -/
def invalid_cities : List String :=
  ["", "   ", "XYZ123NotReal", "123456", "!@#$%^&*()", "null", "undefined",
   "ThisCityDoesNotExist", "AAAAAAAA", "qwerty123", "TestTest", "\n\t\r",
   "City\nWith\nNewlines", "SpecialCity!@#", "VeryLongCityNameThatDoesNotExist"]

/-- The four probe URLs of `check_for_weather_endpoints`
(`weather_api_tester.py:123-128`): two self-describing endpoints followed by
two direct guesses. -/
def probe_endpoints (api_base_url : String) : List String :=
  [api_base_url ++ "/api/health",
   api_base_url ++ "/api/info",
   api_base_url ++ "/weather?city=test",
   api_base_url ++ "/api/weather/test"]

/-- One iteration of the first probe loop (`weather_api_tester.py:130-140`):
evidence is an HTTP 200 whose JSON body, serialized and lower-cased, mentions
both "weather" and "endpoint"; every failure (non-200, unparsable body,
raised exception) is swallowed and counts as no evidence. -/
def probeSelfDescribing : ProbeOutcome → Bool
  | .response status body =>
      if status = 200 then
        match body with
        | Option.some data => containsWeatherEndpoint data
        | Option.none => false
      else false
  | .fault => false

/-- One iteration of the second probe loop (`weather_api_tester.py:143-149`):
any response with status 200, 400 or 404 proves the route exists; a raised
exception is swallowed. -/
def probeDirectGuess : ProbeOutcome → Bool
  | .response status _ => status = 200 ∨ status = 400 ∨ status = 404
  | .fault => false

/-- Direct translation of `WeatherAPITester.check_for_weather_endpoints`
(`weather_api_tester.py:121-151`).  `probeOuts` lists what the four GET
calls (health, info, weather-by-query, weather-by-path, in that order) would
deliver; the loops short-circuit at the first success, so later entries are
simply never consulted.  The function is total: no outcome makes it raise. -/
def check_for_weather_endpoints (probeOuts : List ProbeOutcome) : Bool :=
  (probeOuts.take 2).any probeSelfDescribing ||
    (probeOuts.drop 2).any probeDirectGuess

/-- Direct translation of `WeatherAPITester.create_mock_test_result`
(`weather_api_tester.py:153-201`).  `elapsedMs` is the value of
`(time.time() - start_time) * 1000` computed on entry (line 155). -/
def create_mock_test_result (api_base_url city test_type timestamp : String)
    (elapsedMs : ℚ) : TestResult :=
  if test_type = "invalid" ∧ pyStrip city ∈ ["", "   ", "XYZ123NotReal", "123456"] then
    { timestamp := timestamp, city := city, test_type := test_type,
      passed := true,
      api_endpoint := Option.some (api_base_url ++ "/weather?city=" ++ city),
      status_code := Option.some 404,
      response_time_ms := pyRound2 elapsedMs,
      response_data := Option.none,
      errors := ["No weather API endpoints found - this is expected for invalid inputs"],
      validation_results := ValResults.mock true [] "No API to validate" }
  else if test_type = "valid" ∧ city ∈ valid_cities then
    { timestamp := timestamp, city := city, test_type := test_type,
      passed := false,
      api_endpoint := Option.some (api_base_url ++ "/weather?city=" ++ city),
      status_code := Option.some 404,
      response_time_ms := pyRound2 elapsedMs,
      response_data := Option.none,
      errors := ["No weather API endpoints found - add weather routes to your Flask app"],
      validation_results := ValResults.mock false ["No API endpoint"] "Frontend-only app" }
  else
    { timestamp := timestamp, city := city, test_type := test_type,
      passed := false,
      api_endpoint := Option.some (api_base_url ++ "/weather?city=" ++ city),
      status_code := Option.some 404,
      response_time_ms := pyRound2 elapsedMs,
      response_data := Option.none,
      errors := ["Target app has no weather API - only serves frontend files"],
      validation_results := ValResults.mock false ["No backend API"] "Need to add weather endpoints" }

/-- The four candidate endpoint URLs of `test_api_endpoint`
(`weather_api_tester.py:41-46`), in source order. -/
def possible_endpoints (api_base_url city : String) : List String :=
  [api_base_url ++ "/api/weather/" ++ city,
   api_base_url ++ "/weather?city=" ++ city,
   api_base_url ++ "/api/weather?city=" ++ city,
   api_base_url ++ "/weather/" ++ city]

/-- The result dict as initialised at `weather_api_tester.py:48-59`. -/
def initResult (city test_type timestamp : String) : TestResult :=
  { timestamp := timestamp, city := city, test_type := test_type,
    passed := false,
    api_endpoint := Option.none,
    status_code := Option.none,
    response_time_ms := 0,
    response_data := Option.none,
    errors := [],
    validation_results := ValResults.empty }

/-- The `result.update` of `weather_api_tester.py:74-78`: record the endpoint
URL, the HTTP status, and the rounded elapsed time of the attempt. -/
def recordAttempt (r : TestResult) (endpoint : String) (status : Nat)
    (elapsedMs : ℚ) : TestResult :=
  { r with api_endpoint := Option.some endpoint,
           status_code := Option.some status,
           response_time_ms := pyRound2 elapsedMs }

/-- Direct translation of the candidate-endpoint loop of `test_api_endpoint`
(`weather_api_tester.py:69-114`), processing `(endpoint, outcome)` pairs in
order over the accumulated result `r`.  Every response first records the
endpoint, status and rounded elapsed time via `recordAttempt`; the exception
branches record only the error message and the sentinel status code — they
touch neither `api_endpoint` nor `response_time_ms`. -/
def endpointLoop (test_type : String) (r : TestResult) :
    List (String × HttpOutcome) → TestResult
  | [] => r
  | (endpoint, HttpOutcome.response status body text elapsedMs) :: rest =>
    let r1 := recordAttempt r endpoint status elapsedMs
    if status = 200 then
      match body with
      | Option.some data =>
        let validation := validate_weather_response data r1.city test_type
        { r1 with response_data := Option.some data,
                  validation_results := ValResults.report validation,
                  passed := validation.is_valid,
                  errors := validation.errors }
      | Option.none =>
        { r1 with errors := r1.errors ++ ["Response is not valid JSON"] }
    else if (status = 404 ∨ status = 400 ∨ status = 422) ∧ test_type = "invalid" then
      { r1 with passed := true,
                errors := r1.errors ++
                  ["Correctly returned error " ++ toString status ++ " for invalid input"] }
    else if status = 404 then
      endpointLoop test_type r1 rest
    else
      { r1 with errors := r1.errors ++
          ["HTTP " ++ toString status ++ ": " ++ text.take 100] }
  | (_, HttpOutcome.fault Fault.timeout _) :: _ =>
    { r with errors := r.errors ++ ["Request timeout (>10 seconds)"],
             status_code := Option.some 408 }
  | (_, HttpOutcome.fault Fault.connError _) :: _ =>
    { r with errors := r.errors ++ ["Connection error - API might be down"],
             status_code := Option.some 0 }
  | (_, HttpOutcome.fault (Fault.otherError msg) _) :: _ =>
    { r with errors := r.errors ++ ["Unexpected error: " ++ msg],
             status_code := Option.some 500 }

/-- Direct translation of `WeatherAPITester.test_api_endpoint`
(`weather_api_tester.py:37-119`), the sole entry point (`runTest` of the
specification).  `probeOuts` drives `check_for_weather_endpoints`, `outs`
lists what each successive `session.get` of the candidate loop would deliver,
and `mockElapsedMs` is the clock reading `create_mock_test_result` would take
on entry.  The function is total — every transport fault and parse failure is
folded into the returned record, never raised — and it consults `outs` only
when the prober reports a weather API. -/
def test_api_endpoint (api_base_url city test_type timestamp : String)
    (probeOuts : List ProbeOutcome) (outs : List HttpOutcome)
    (mockElapsedMs : ℚ) : TestResult :=
  let api_has_endpoints := check_for_weather_endpoints probeOuts
  if api_has_endpoints = false then
    create_mock_test_result api_base_url city test_type timestamp mockElapsedMs
  else
    let result := endpointLoop test_type (initResult city test_type timestamp)
      ((possible_endpoints api_base_url city).zip outs)
    if result.api_endpoint = Option.none then
      { result with errors := result.errors ++ ["No valid API endpoint found"] }
    else result

/-- Status-code sentinel recorded for each transport fault
(`weather_api_tester.py:103-114`). -/
def faultStatus : Fault → Nat
  | .timeout => 408
  | .connError => 0
  | .otherError _ => 500

/-- Error message recorded for each transport fault
(`weather_api_tester.py:103-114`). -/
def faultMsg : Fault → String
  | .timeout => "Request timeout (>10 seconds)"
  | .connError => "Connection error - API might be down"
  | .otherError msg => "Unexpected error: " ++ msg


/-! ## Helper lemmas -/

theorem roundHalfEven_nonneg (q : ℚ) (h : 0 ≤ q) : 0 ≤ roundHalfEven q := by
  have hf : (0 : ℤ) ≤ ⌊q⌋ := Int.floor_nonneg.mpr h
  simp only [roundHalfEven]
  split_ifs <;> omega

theorem pyRound2_nonneg (q : ℚ) (h : 0 ≤ q) : 0 ≤ pyRound2 q := by
  unfold pyRound2
  have h1 : (0 : ℤ) ≤ roundHalfEven (q * 100) :=
    roundHalfEven_nonneg _ (by positivity)
  have h2 : (0 : ℚ) ≤ ((roundHalfEven (q * 100) : ℤ) : ℚ) := Int.cast_nonneg.mpr h1
  exact div_nonneg h2 (by norm_num)

theorem endpointLoop_nil (test_type : String) (r : TestResult) :
    endpointLoop test_type r [] = r := rfl

theorem endpointLoop_fault (test_type : String) (r : TestResult) (endpoint : String)
    (f : Fault) (e : ℚ) (rest : List (String × HttpOutcome)) :
    endpointLoop test_type r ((endpoint, HttpOutcome.fault f e) :: rest) =
      { r with errors := r.errors ++ [faultMsg f],
               status_code := Option.some (faultStatus f) } := by
  cases f <;> rfl

theorem endpointLoop_404_continue (test_type : String) (h : test_type ≠ "invalid")
    (r : TestResult) (endpoint text : String) (body : Option PyVal) (e : ℚ)
    (rest : List (String × HttpOutcome)) :
    endpointLoop test_type r ((endpoint, HttpOutcome.response 404 body text e) :: rest) =
      endpointLoop test_type (recordAttempt r endpoint 404 e) rest := by
  simp [endpointLoop, h]

/-- Processing any run of 404-continue responses followed by a transport
fault: the fault terminates the loop, records the corresponding sentinel
status code, appends exactly the fault message, and leaves `passed`
untouched. -/
theorem endpointLoop_prefix404_fault (test_type : String)
    (pre : List HttpOutcome) (f : Fault) (e : ℚ) :
    ∀ (eps : List String) (rest : List HttpOutcome) (r : TestResult),
      (∀ o ∈ pre, ∃ b t el, o = HttpOutcome.response 404 b t el) →
      (pre = [] ∨ test_type ≠ "invalid") →
      pre.length < eps.length →
      (endpointLoop test_type r (eps.zip (pre ++ HttpOutcome.fault f e :: rest))).status_code
          = Option.some (faultStatus f) ∧
      (endpointLoop test_type r (eps.zip (pre ++ HttpOutcome.fault f e :: rest))).errors
          = r.errors ++ [faultMsg f] ∧
      (endpointLoop test_type r (eps.zip (pre ++ HttpOutcome.fault f e :: rest))).passed
          = r.passed := by
  induction pre with
  | nil =>
    intro eps rest r _ _ hlen
    cases eps with
    | nil => simp at hlen
    | cons e0 eps' =>
      simp only [List.nil_append, List.zip_cons_cons]
      rw [endpointLoop_fault]
      exact ⟨rfl, rfl, rfl⟩
  | cons o pre' ih =>
    intro eps rest r hpre htt hlen
    obtain ⟨b, t, el, rfl⟩ := hpre o (List.mem_cons_self o pre')
    have htt' : test_type ≠ "invalid" := by
      cases htt with
      | inl hcontra => exact absurd hcontra (by simp)
      | inr htt' => exact htt'
    cases eps with
    | nil => simp at hlen
    | cons e0 eps' =>
      simp only [List.cons_append, List.zip_cons_cons]
      rw [endpointLoop_404_continue test_type htt']
      have hrec := ih eps' rest (recordAttempt r e0 404 el)
        (fun o ho => hpre o (List.mem_cons_of_mem _ ho)) (Or.inr htt')
        (by simpa using hlen)
      simpa [recordAttempt] using hrec

/-- Loop invariant behind the §3 pass invariant: starting from a result with
`passed = false` whose `test_type` field matches the loop's test type, the
loop can set `passed` only together with either a validator report whose
`is_valid` is true, or a 400/404/422 rejection of an `"invalid"`-type test. -/
theorem endpointLoop_passed_invariant (test_type : String) :
    ∀ (l : List (String × HttpOutcome)) (r : TestResult),
      r.passed = false → r.test_type = test_type →
      (endpointLoop test_type r l).passed = true →
      valResultsIsValid (endpointLoop test_type r l).validation_results = Option.some true ∨
      (((endpointLoop test_type r l).status_code = Option.some 400 ∨
        (endpointLoop test_type r l).status_code = Option.some 404 ∨
        (endpointLoop test_type r l).status_code = Option.some 422) ∧
       (endpointLoop test_type r l).test_type = "invalid") := by
  intro l
  induction l with
  | nil =>
    intro r hp ht hpass
    rw [endpointLoop_nil] at hpass
    rw [hp] at hpass
    exact absurd hpass (by simp)
  | cons hd tl ih =>
    obtain ⟨ep, o⟩ := hd
    intro r hp ht hpass
    cases o with
    | fault f e =>
      rw [endpointLoop_fault] at hpass ⊢
      exact absurd (hp ▸ hpass) (by simp)
    | response status body text el =>
      by_cases h200 : status = 200
      · subst h200
        cases body with
        | some data =>
          simp only [endpointLoop, if_pos rfl] at hpass ⊢
          left
          simpa [valResultsIsValid] using hpass
        | none =>
          simp only [endpointLoop, if_pos rfl] at hpass
          exact absurd (hp ▸ hpass) (by simp [recordAttempt])
      · by_cases hinv : (status = 404 ∨ status = 400 ∨ status = 422) ∧ test_type = "invalid"
        · right
          simp only [endpointLoop, if_neg h200, if_pos hinv] at hpass ⊢
          refine ⟨?_, ?_⟩
          · rcases hinv.1 with h4 | h4 | h4 <;>
              simp [recordAttempt, h4]
          · simp [recordAttempt, ht, hinv.2]
        · by_cases h404 : status = 404
          · subst h404
            rw [endpointLoop_404_continue test_type (fun hcon => hinv ⟨Or.inl rfl, hcon⟩)]
              at hpass ⊢
            exact ih (recordAttempt r ep 404 el) (by simpa [recordAttempt] using hp)
              (by simpa [recordAttempt] using ht) hpass
          · simp only [endpointLoop, if_neg h200, if_neg hinv, if_neg h404] at hpass
            exact absurd (hp ▸ hpass) (by simp [recordAttempt])

/-- The loop never makes `response_time_ms` negative: it either leaves the
accumulated value alone (the fault branches) or overwrites it with the
rounded elapsed time of a response. -/
theorem endpointLoop_rt_nonneg (test_type : String) :
    ∀ (l : List (String × HttpOutcome)) (r : TestResult),
      0 ≤ r.response_time_ms →
      (∀ p ∈ l, 0 ≤ outcomeElapsed p.2) →
      0 ≤ (endpointLoop test_type r l).response_time_ms := by
  intro l
  induction l with
  | nil =>
    intro r hr _
    rw [endpointLoop_nil]
    exact hr
  | cons hd tl ih =>
    obtain ⟨ep, o⟩ := hd
    intro r hr hall
    have hhd : 0 ≤ outcomeElapsed o := hall (ep, o) (List.mem_cons_self _ _)
    cases o with
    | fault f e =>
      rw [endpointLoop_fault]
      exact hr
    | response status body text el =>
      have hel : 0 ≤ pyRound2 el := pyRound2_nonneg el (by simpa [outcomeElapsed] using hhd)
      by_cases h200 : status = 200
      · subst h200
        cases body with
        | some data => simpa [endpointLoop, recordAttempt] using hel
        | none => simpa [endpointLoop, recordAttempt] using hel
      · by_cases hinv : (status = 404 ∨ status = 400 ∨ status = 422) ∧ test_type = "invalid"
        · simp only [endpointLoop, if_neg h200, if_pos hinv]
          simpa [recordAttempt] using hel
        · by_cases h404 : status = 404
          · subst h404
            rw [endpointLoop_404_continue test_type (fun hcon => hinv ⟨Or.inl rfl, hcon⟩)]
            exact ih (recordAttempt r ep 404 el) (by simpa [recordAttempt] using hel)
              (fun p hpmem => hall p (List.mem_cons_of_mem _ hpmem))
          · simp only [endpointLoop, if_neg h200, if_neg hinv, if_neg h404]
            simpa [recordAttempt] using hel

/-- The combined missing-fields message never collides with the temperature
type error: the two start with different characters. -/
theorem missingErr_ne_tempErr (s : String) :
    "Missing required fields: " ++ s ≠ "Temperature is not numeric" := by
  intro h
  have hd : ("Missing required fields: " ++ s).data =
      ("Temperature is not numeric" : String).data := congrArg String.data h
  have h1 : ("Missing required fields: " ++ s).data.head? = Option.some 'M' := rfl
  rw [hd] at h1
  exact absurd h1 (by decide)

/-- In every validator report, `is_valid` is true exactly when no error was
recorded: warnings never affect validity. -/
theorem validate_is_valid_iff_errors (data : PyVal) (city test_type : String) :
    ((validate_weather_response data city test_type).is_valid = true ↔
      (validate_weather_response data city test_type).errors = []) := by
  cases data with
  | dict entries =>
    by_cases hm : missingRequired entries = [] <;>
    rcases hT : pyGet entries "temperature" with _ | temp <;>
    rcases hD : pyGet entries "description" with _ | desc <;>
    rcases hC : pyGet entries "city" with _ | rc <;>
    (simp only [validate_weather_response, hm, hT, hD, hC]
     split_ifs <;> simp)
  | none => simp [validate_weather_response]
  | bool b => simp [validate_weather_response]
  | int n => simp [validate_weather_response]
  | float q => simp [validate_weather_response]
  | str s => simp [validate_weather_response]
  | list l => simp [validate_weather_response]

/-- Reversed orientation of `missingErr_ne_tempErr`, for membership
rewriting. -/
theorem tempErr_ne_missingErr (s : String) :
    "Temperature is not numeric" ≠ "Missing required fields: " ++ s :=
  fun h => missingErr_ne_tempErr s h.symm

/-! ## Claims -/

/-- C10: the validator is a function of its `data` argument alone — the
`city` and `test_type` parameters of `validate_weather_response` are never
consulted, so any two calls on the same payload return identical reports. -/
theorem claim_C10_validator_ignores_city_and_test_type (data : PyVal)
    (city1 test_type1 city2 test_type2 : String) :
    validate_weather_response data city1 test_type1 =
      validate_weather_response data city2 test_type2 := rfl

/-- C7: for every JSON value `data`, when `data` is not a JSON object the
validator returns exactly `is_valid = false`, the single error "Response is
not a JSON object", no warnings and empty `found_fields`; and when `data` is
an object missing at least one of the required fields `city`, `temperature`,
`description`, the report has `is_valid = false` and its first error is the
single combined message listing all the missing field names comma-joined in
that fixed order. -/
theorem claim_C7_validator_shape_errors (data : PyVal) (city test_type : String) :
    ((∀ entries, data ≠ PyVal.dict entries) →
      validate_weather_response data city test_type =
        { is_valid := false, errors := ["Response is not a JSON object"],
          warnings := [], found_fields := [] }) ∧
    (∀ entries, data = PyVal.dict entries → missingRequired entries ≠ [] →
      (validate_weather_response data city test_type).is_valid = false ∧
      (validate_weather_response data city test_type).errors.head? =
        Option.some ("Missing required fields: " ++
          String.intercalate ", " (missingRequired entries))) := by
  constructor
  · intro hne
    cases data with
    | dict entries => exact absurd rfl (hne entries)
    | none => rfl
    | bool b => rfl
    | int n => rfl
    | float q => rfl
    | str s => rfl
    | list l => rfl
  · rintro entries rfl hm
    rcases hT : pyGet entries "temperature" with _ | temp <;>
    rcases hD : pyGet entries "description" with _ | desc <;>
    rcases hC : pyGet entries "city" with _ | rc <;>
    (simp only [validate_weather_response, hm, hT, hD, hC]
     split_ifs <;> simp_all)

/-- C7 witness: the two conditional parts of the claim evaluated at concrete
payloads — a bare string, and an object that only carries `city`. -/
theorem claim_C7_witness :
    (validate_weather_response (PyVal.str "hello") "London" "valid" =
      { is_valid := false, errors := ["Response is not a JSON object"],
        warnings := [], found_fields := [] }) ∧
    ((validate_weather_response (PyVal.dict [("city", PyVal.str "Paris")])
        "London" "valid").is_valid = false ∧
     (validate_weather_response (PyVal.dict [("city", PyVal.str "Paris")])
        "London" "valid").errors.head? =
       Option.some ("Missing required fields: " ++ String.intercalate ", "
         (missingRequired [("city", PyVal.str "Paris")]))) :=
  ⟨(claim_C7_validator_shape_errors (PyVal.str "hello") "London" "valid").1
      (fun _ h => nomatch h),
   (claim_C7_validator_shape_errors (PyVal.dict [("city", PyVal.str "Paris")])
      "London" "valid").2 [("city", PyVal.str "Paris")] rfl (by decide)⟩

/-- C8 counterexample: the claim demands the non-numeric error for boolean
temperatures, but `isinstance(True, (int, float))` holds in Python (`bool`
is a subclass of `int`), so the code accepts a boolean temperature: this
payload validates with no errors at all and `is_valid = true`. -/
theorem claim_C8_counterexample :
    (validate_weather_response
      (PyVal.dict [("city", PyVal.str "Oslo"), ("temperature", PyVal.bool true),
                   ("description", PyVal.str "Sunny")]) "Oslo" "valid").errors = [] ∧
    (validate_weather_response
      (PyVal.dict [("city", PyVal.str "Oslo"), ("temperature", PyVal.bool true),
                   ("description", PyVal.str "Sunny")]) "Oslo" "valid").is_valid = true := by
  exact ⟨by decide, by decide⟩

/-- C8 amended: when the object carries a `temperature` binding, the
validator appends the error "Temperature is not numeric" and forces
`is_valid = false` exactly when the value fails Python's
`isinstance(temp, (int, float))` check — strings, null, arrays and objects
fail it, but booleans pass it because Python `bool` is a subclass of `int`;
when the check passes and the numeric value (with `True = 1`, `False = 0`)
is strictly below -100 or strictly above 70, the extreme-temperature warning
is appended, and warnings never affect `is_valid`, which is true exactly
when no error was recorded. -/
theorem claim_C8_amended_temperature_checks
    (entries : List (String × PyVal)) (city test_type : String) (temp : PyVal)
    (hlook : pyGet entries "temperature" = Option.some temp) :
    (pyIsNumeric temp = false →
      "Temperature is not numeric" ∈
        (validate_weather_response (PyVal.dict entries) city test_type).errors ∧
      (validate_weather_response (PyVal.dict entries) city test_type).is_valid = false) ∧
    (pyIsNumeric temp = true →
      "Temperature is not numeric" ∉
        (validate_weather_response (PyVal.dict entries) city test_type).errors ∧
      ((pyNumVal temp < -100 ∨ 70 < pyNumVal temp) →
        ("Temperature " ++ pyNumStr temp ++ "°C seems extreme") ∈
          (validate_weather_response (PyVal.dict entries) city test_type).warnings)) ∧
    ((validate_weather_response (PyVal.dict entries) city test_type).is_valid = true ↔
      (validate_weather_response (PyVal.dict entries) city test_type).errors = []) := by
  refine ⟨?_, ?_, validate_is_valid_iff_errors (PyVal.dict entries) city test_type⟩
  · intro hnn
    by_cases hm : missingRequired entries = [] <;>
    rcases hD : pyGet entries "description" with _ | desc <;>
    rcases hC : pyGet entries "city" with _ | rc <;>
    (simp only [validate_weather_response, hm, hlook, hD, hC, hnn]
     split_ifs <;> simp_all)
  · intro hn
    constructor
    · by_cases hm : missingRequired entries = [] <;>
      rcases hD : pyGet entries "description" with _ | desc <;>
      rcases hC : pyGet entries "city" with _ | rc <;>
      (simp only [validate_weather_response, hm, hlook, hD, hC, hn]
       split_ifs <;> simp_all [tempErr_ne_missingErr])
    · intro hrange
      by_cases hm : missingRequired entries = [] <;>
      rcases hD : pyGet entries "description" with _ | desc <;>
      rcases hC : pyGet entries "city" with _ | rc <;>
      (simp only [validate_weather_response, hm, hlook, hD, hC, hn]
       split_ifs <;> simp_all)

/-- C8 witness: the amended claim evaluated at Scenario D (a string
temperature yields the non-numeric error and an invalid report) and at
Scenario E (-150 is numeric, triggers only the extreme-temperature
warning). -/
theorem claim_C8_witness :
    ("Temperature is not numeric" ∈
      (validate_weather_response (PyVal.dict [("temperature", PyVal.str "hot")])
        "Rome" "valid").errors ∧
     (validate_weather_response (PyVal.dict [("temperature", PyVal.str "hot")])
        "Rome" "valid").is_valid = false) ∧
    ("Temperature is not numeric" ∉
      (validate_weather_response
        (PyVal.dict [("city", PyVal.str "Oslo"), ("temperature", PyVal.int (-150)),
                     ("description", PyVal.str "Freezing")]) "Oslo" "valid").errors) ∧
    (("Temperature " ++ pyNumStr (PyVal.int (-150)) ++ "°C seems extreme") ∈
      (validate_weather_response
        (PyVal.dict [("city", PyVal.str "Oslo"), ("temperature", PyVal.int (-150)),
                     ("description", PyVal.str "Freezing")]) "Oslo" "valid").warnings) := by
  have h1 := claim_C8_amended_temperature_checks [("temperature", PyVal.str "hot")]
    "Rome" "valid" (PyVal.str "hot") rfl
  have h2 := claim_C8_amended_temperature_checks
    [("city", PyVal.str "Oslo"), ("temperature", PyVal.int (-150)),
     ("description", PyVal.str "Freezing")] "Oslo" "valid" (PyVal.int (-150)) rfl
  exact ⟨h1.1 rfl, (h2.2.1 rfl).1, (h2.2.1 rfl).2 (Or.inl (by norm_num [pyNumVal]))⟩

/-- C5: whenever the prober reports no weather API, the synthesized result
always carries status 404 and the non-null query-string endpoint, and it
passes exactly when the test type is `"invalid"` and the stripped city is one
of the four canonical markers of the mock classifier. -/
theorem claim_C5_mock_classification (api_base_url city test_type timestamp : String)
    (probeOuts : List ProbeOutcome) (outs : List HttpOutcome) (mockElapsedMs : ℚ)
    (hprobe : check_for_weather_endpoints probeOuts = false) :
    (test_api_endpoint api_base_url city test_type timestamp probeOuts outs
        mockElapsedMs).status_code = Option.some 404 ∧
    (test_api_endpoint api_base_url city test_type timestamp probeOuts outs
        mockElapsedMs).api_endpoint =
      Option.some (api_base_url ++ "/weather?city=" ++ city) ∧
    ((test_api_endpoint api_base_url city test_type timestamp probeOuts outs
        mockElapsedMs).passed = true ↔
      (test_type = "invalid" ∧ pyStrip city ∈ ["", "   ", "XYZ123NotReal", "123456"])) := by
  have hmock : test_api_endpoint api_base_url city test_type timestamp probeOuts outs
      mockElapsedMs = create_mock_test_result api_base_url city test_type timestamp
      mockElapsedMs := by
    simp [test_api_endpoint, hprobe]
  rw [hmock]
  unfold create_mock_test_result
  split_ifs with h1 h2
  · exact ⟨rfl, rfl, iff_of_true rfl h1⟩
  · exact ⟨rfl, rfl, iff_of_false (by simp) h1⟩
  · exact ⟨rfl, rfl, iff_of_false (by simp) h1⟩

/-- C5 witness: a frontend-only probe, test type `"invalid"` and the empty
city marker give a passing 404 mock result at the query-string endpoint. -/
theorem claim_C5_witness :
    (test_api_endpoint "http://t" "" "invalid" "T" [] [] 5).status_code =
      Option.some 404 ∧
    (test_api_endpoint "http://t" "" "invalid" "T" [] [] 5).api_endpoint =
      Option.some ("http://t" ++ "/weather?city=" ++ "") ∧
    ((test_api_endpoint "http://t" "" "invalid" "T" [] [] 5).passed = true ↔
      ("invalid" = "invalid" ∧ pyStrip "" ∈ ["", "   ", "XYZ123NotReal", "123456"])) :=
  claim_C5_mock_classification "http://t" "" "invalid" "T" [] [] 5 rfl

/-- C6: the prober is a total function of the delivered outcomes (every
raised request exception is swallowed), and when no self-describing endpoint
supplies 200-plus-JSON evidence mentioning weather endpoints and no direct
guess answers with a status in {200, 400, 404}, it returns false. -/
theorem claim_C6_probe_no_evidence_false (probeOuts : List ProbeOutcome)
    (h1 : ∀ status data,
        ProbeOutcome.response status (Option.some data) ∈ probeOuts.take 2 →
        status = 200 → containsWeatherEndpoint data = false)
    (h2 : ∀ status body, ProbeOutcome.response status body ∈ probeOuts.drop 2 →
        status ≠ 200 ∧ status ≠ 400 ∧ status ≠ 404) :
    check_for_weather_endpoints probeOuts = false := by
  unfold check_for_weather_endpoints
  rw [Bool.or_eq_false_iff]
  constructor
  · rw [List.any_eq_false]
    intro o ho
    cases o with
    | fault => simp [probeSelfDescribing]
    | response status body =>
      simp only [probeSelfDescribing]
      split_ifs with h200
      · cases body with
        | none => simp
        | some data => simpa using h1 status data ho h200
      · simp
  · rw [List.any_eq_false]
    intro o ho
    cases o with
    | fault => simp [probeDirectGuess]
    | response status body =>
      have h := h2 status body ho
      simp [probeDirectGuess, h.1, h.2.1, h.2.2]

/-- C6 witness: a probe run whose first two outcomes are a raised exception
and a bodyless 500, and whose direct guesses are a 500 and a raised
exception, reports no weather API. -/
theorem claim_C6_witness :
    check_for_weather_endpoints
      [ProbeOutcome.fault, ProbeOutcome.response 500 Option.none,
       ProbeOutcome.response 500 Option.none, ProbeOutcome.fault] = false := by
  refine claim_C6_probe_no_evidence_false _ ?_ ?_
  · intro status data hmem h200
    simp at hmem
  · intro status body hmem
    simp only [List.drop_succ_cons, List.drop_zero, List.mem_cons,
      List.not_mem_nil, or_false] at hmem
    rcases hmem with h | h
    · injection h with hs hb
      subst hs
      exact ⟨by decide, by decide, by decide⟩
    · exact absurd h (by simp)

/-- C1: every result of `test_api_endpoint` — mock-synthesized ones included —
that is marked passed either carries `validation_results` with
`is_valid = true`, or records one of the rejection statuses 400/404/422 under
test type `"invalid"`. -/
theorem claim_C1_passed_invariant (api_base_url city test_type timestamp : String)
    (probeOuts : List ProbeOutcome) (outs : List HttpOutcome) (mockElapsedMs : ℚ)
    (r : TestResult)
    (hr : r = test_api_endpoint api_base_url city test_type timestamp probeOuts outs
      mockElapsedMs)
    (hpass : r.passed = true) :
    valResultsIsValid r.validation_results = Option.some true ∨
    ((r.status_code = Option.some 400 ∨ r.status_code = Option.some 404 ∨
      r.status_code = Option.some 422) ∧ r.test_type = "invalid") := by
  subst hr
  by_cases hprobe : check_for_weather_endpoints probeOuts = false
  · have hmock : test_api_endpoint api_base_url city test_type timestamp probeOuts outs
        mockElapsedMs = create_mock_test_result api_base_url city test_type timestamp
        mockElapsedMs := by
      simp [test_api_endpoint, hprobe]
    rw [hmock] at hpass ⊢
    unfold create_mock_test_result at hpass ⊢
    split_ifs at hpass ⊢ with h1
    left
    rfl
  · have hprobe' : check_for_weather_endpoints probeOuts = true := by
      revert hprobe
      cases check_for_weather_endpoints probeOuts <;> simp
    simp only [test_api_endpoint, hprobe'] at hpass ⊢
    by_cases hapi : (endpointLoop test_type (initResult city test_type timestamp)
        ((possible_endpoints api_base_url city).zip outs)).api_endpoint = Option.none
    · rw [if_pos hapi] at hpass ⊢
      exact endpointLoop_passed_invariant test_type
        ((possible_endpoints api_base_url city).zip outs)
        (initResult city test_type timestamp) rfl rfl hpass
    · rw [if_neg hapi] at hpass ⊢
      exact endpointLoop_passed_invariant test_type
        ((possible_endpoints api_base_url city).zip outs)
        (initResult city test_type timestamp) rfl rfl hpass

/-- C1 witness: a mock-synthesized passing result (no weather API, test type
`"invalid"`, empty city) satisfies the invariant. -/
theorem claim_C1_witness :
    (test_api_endpoint "http://t" "" "invalid" "T" [] [] 3).passed = true ∧
    (valResultsIsValid
        (test_api_endpoint "http://t" "" "invalid" "T" [] [] 3).validation_results =
          Option.some true ∨
      (((test_api_endpoint "http://t" "" "invalid" "T" [] [] 3).status_code =
          Option.some 400 ∨
        (test_api_endpoint "http://t" "" "invalid" "T" [] [] 3).status_code =
          Option.some 404 ∨
        (test_api_endpoint "http://t" "" "invalid" "T" [] [] 3).status_code =
          Option.some 422) ∧
       (test_api_endpoint "http://t" "" "invalid" "T" [] [] 3).test_type = "invalid")) :=
  ⟨by decide,
   claim_C1_passed_invariant "http://t" "" "invalid" "T" [] [] 3 _ rfl (by decide)⟩

/-- C2 counterexample: with the prober affirmative and all four candidates
answering 404 under a non-"invalid" test type, the loop's `result.update`
has already recorded each candidate before the status check, so
`api_endpoint` ends up as the fourth candidate URL (not null) and the
"No valid API endpoint found" message is never appended — `errors` is empty,
contradicting the claim. -/
theorem claim_C2_counterexample :
    (test_api_endpoint "http://t" "London" "standard" "T"
      [ProbeOutcome.fault, ProbeOutcome.fault,
       ProbeOutcome.response 200 Option.none, ProbeOutcome.fault]
      [HttpOutcome.response 404 Option.none "" 1, HttpOutcome.response 404 Option.none "" 2,
       HttpOutcome.response 404 Option.none "" 3, HttpOutcome.response 404 Option.none "" 4]
      0).errors = [] ∧
    (test_api_endpoint "http://t" "London" "standard" "T"
      [ProbeOutcome.fault, ProbeOutcome.fault,
       ProbeOutcome.response 200 Option.none, ProbeOutcome.fault]
      [HttpOutcome.response 404 Option.none "" 1, HttpOutcome.response 404 Option.none "" 2,
       HttpOutcome.response 404 Option.none "" 3, HttpOutcome.response 404 Option.none "" 4]
      0).api_endpoint = Option.some "http://t/weather/London" ∧
    (test_api_endpoint "http://t" "London" "standard" "T"
      [ProbeOutcome.fault, ProbeOutcome.fault,
       ProbeOutcome.response 200 Option.none, ProbeOutcome.fault]
      [HttpOutcome.response 404 Option.none "" 1, HttpOutcome.response 404 Option.none "" 2,
       HttpOutcome.response 404 Option.none "" 3, HttpOutcome.response 404 Option.none "" 4]
      0).passed = false :=
  ⟨by decide, by decide, by decide⟩

/-- C2 amended: exhausting all four candidates with 404-continues leaves
`passed = false` and `status_code = 404` as claimed, but `api_endpoint` is
the last (fourth) candidate URL rather than null — every attempt records its
endpoint before the status check — so the api-endpoint-is-null guard fails
and the "No valid API endpoint found" error is not appended: `errors` stays
empty. -/
theorem claim_C2_amended_all_404_exhaustion
    (api_base_url city test_type timestamp : String)
    (probeOuts : List ProbeOutcome) (mockElapsedMs : ℚ)
    (b1 b2 b3 b4 : Option PyVal) (t1 t2 t3 t4 : String) (e1 e2 e3 e4 : ℚ)
    (hprobe : check_for_weather_endpoints probeOuts = true)
    (htt : test_type ≠ "invalid") :
    (test_api_endpoint api_base_url city test_type timestamp probeOuts
      [HttpOutcome.response 404 b1 t1 e1, HttpOutcome.response 404 b2 t2 e2,
       HttpOutcome.response 404 b3 t3 e3, HttpOutcome.response 404 b4 t4 e4]
      mockElapsedMs).passed = false ∧
    (test_api_endpoint api_base_url city test_type timestamp probeOuts
      [HttpOutcome.response 404 b1 t1 e1, HttpOutcome.response 404 b2 t2 e2,
       HttpOutcome.response 404 b3 t3 e3, HttpOutcome.response 404 b4 t4 e4]
      mockElapsedMs).status_code = Option.some 404 ∧
    (test_api_endpoint api_base_url city test_type timestamp probeOuts
      [HttpOutcome.response 404 b1 t1 e1, HttpOutcome.response 404 b2 t2 e2,
       HttpOutcome.response 404 b3 t3 e3, HttpOutcome.response 404 b4 t4 e4]
      mockElapsedMs).api_endpoint = Option.some (api_base_url ++ "/weather/" ++ city) ∧
    (test_api_endpoint api_base_url city test_type timestamp probeOuts
      [HttpOutcome.response 404 b1 t1 e1, HttpOutcome.response 404 b2 t2 e2,
       HttpOutcome.response 404 b3 t3 e3, HttpOutcome.response 404 b4 t4 e4]
      mockElapsedMs).errors = [] := by
  have hres : endpointLoop test_type (initResult city test_type timestamp)
      ((possible_endpoints api_base_url city).zip
        [HttpOutcome.response 404 b1 t1 e1, HttpOutcome.response 404 b2 t2 e2,
         HttpOutcome.response 404 b3 t3 e3, HttpOutcome.response 404 b4 t4 e4]) =
      recordAttempt (recordAttempt (recordAttempt (recordAttempt
        (initResult city test_type timestamp)
        (api_base_url ++ "/api/weather/" ++ city) 404 e1)
        (api_base_url ++ "/weather?city=" ++ city) 404 e2)
        (api_base_url ++ "/api/weather?city=" ++ city) 404 e3)
        (api_base_url ++ "/weather/" ++ city) 404 e4 := by
    rw [show (possible_endpoints api_base_url city).zip
        [HttpOutcome.response 404 b1 t1 e1, HttpOutcome.response 404 b2 t2 e2,
         HttpOutcome.response 404 b3 t3 e3, HttpOutcome.response 404 b4 t4 e4] =
      [(api_base_url ++ "/api/weather/" ++ city, HttpOutcome.response 404 b1 t1 e1),
       (api_base_url ++ "/weather?city=" ++ city, HttpOutcome.response 404 b2 t2 e2),
       (api_base_url ++ "/api/weather?city=" ++ city, HttpOutcome.response 404 b3 t3 e3),
       (api_base_url ++ "/weather/" ++ city, HttpOutcome.response 404 b4 t4 e4)] from rfl]
    rw [endpointLoop_404_continue test_type htt, endpointLoop_404_continue test_type htt,
        endpointLoop_404_continue test_type htt, endpointLoop_404_continue test_type htt,
        endpointLoop_nil]
  simp only [test_api_endpoint, hprobe, hres]
  rw [if_neg (by simp : ¬ (true = false)), if_neg (by simp [recordAttempt])]
  exact ⟨rfl, rfl, rfl, rfl⟩

/-- C2 witness: the amended statement evaluated on a concrete run whose
probe confirms the API (a direct guess answers 404) and whose four candidate
attempts all answer 404 under test type `"standard"`. -/
theorem claim_C2_witness :
    check_for_weather_endpoints
      [ProbeOutcome.fault, ProbeOutcome.fault, ProbeOutcome.response 404 Option.none] = true ∧
    (test_api_endpoint "http://s" "Paris" "standard" "T"
      [ProbeOutcome.fault, ProbeOutcome.fault, ProbeOutcome.response 404 Option.none]
      [HttpOutcome.response 404 Option.none "a" 10, HttpOutcome.response 404 Option.none "b" 20,
       HttpOutcome.response 404 Option.none "c" 30, HttpOutcome.response 404 Option.none "d" 40]
      0).passed = false ∧
    (test_api_endpoint "http://s" "Paris" "standard" "T"
      [ProbeOutcome.fault, ProbeOutcome.fault, ProbeOutcome.response 404 Option.none]
      [HttpOutcome.response 404 Option.none "a" 10, HttpOutcome.response 404 Option.none "b" 20,
       HttpOutcome.response 404 Option.none "c" 30, HttpOutcome.response 404 Option.none "d" 40]
      0).api_endpoint = Option.some ("http://s" ++ "/weather/" ++ "Paris") ∧
    (test_api_endpoint "http://s" "Paris" "standard" "T"
      [ProbeOutcome.fault, ProbeOutcome.fault, ProbeOutcome.response 404 Option.none]
      [HttpOutcome.response 404 Option.none "a" 10, HttpOutcome.response 404 Option.none "b" 20,
       HttpOutcome.response 404 Option.none "c" 30, HttpOutcome.response 404 Option.none "d" 40]
      0).errors = [] := by
  have h := claim_C2_amended_all_404_exhaustion "http://s" "Paris" "standard" "T"
    [ProbeOutcome.fault, ProbeOutcome.fault, ProbeOutcome.response 404 Option.none] 0
    Option.none Option.none Option.none Option.none "a" "b" "c" "d" 10 20 30 40
    rfl (by decide)
  exact ⟨rfl, h.1, h.2.2.1, h.2.2.2⟩

/-- C3: the dispatcher is a total function of the delivered outcomes — every
transport fault is folded into the returned record — and on any run whose
candidate loop hits a transport fault (after any number of 404-continues),
the fault kind is recorded as the matching sentinel status code (timeout 408,
connection failure 0, any other fault 500), its human-readable message is
appended to `errors`, and `passed` stays false. -/
theorem claim_C3_fault_mapping (api_base_url city test_type timestamp : String)
    (probeOuts : List ProbeOutcome) (mockElapsedMs : ℚ)
    (pre : List HttpOutcome) (f : Fault) (e : ℚ) (rest : List HttpOutcome)
    (hprobe : check_for_weather_endpoints probeOuts = true)
    (hpre : ∀ o ∈ pre, ∃ b t el, o = HttpOutcome.response 404 b t el)
    (htt : pre = [] ∨ test_type ≠ "invalid")
    (hlen : pre.length < 4) :
    (test_api_endpoint api_base_url city test_type timestamp probeOuts
        (pre ++ HttpOutcome.fault f e :: rest) mockElapsedMs).status_code =
      Option.some (faultStatus f) ∧
    faultMsg f ∈ (test_api_endpoint api_base_url city test_type timestamp probeOuts
        (pre ++ HttpOutcome.fault f e :: rest) mockElapsedMs).errors ∧
    (test_api_endpoint api_base_url city test_type timestamp probeOuts
        (pre ++ HttpOutcome.fault f e :: rest) mockElapsedMs).passed = false := by
  have hmain := endpointLoop_prefix404_fault test_type pre f e
    (possible_endpoints api_base_url city) rest (initResult city test_type timestamp)
    hpre htt (by simpa [possible_endpoints] using hlen)
  simp only [test_api_endpoint, hprobe]
  rw [if_neg (by simp : ¬ (true = false))]
  by_cases hapi : (endpointLoop test_type (initResult city test_type timestamp)
      ((possible_endpoints api_base_url city).zip
        (pre ++ HttpOutcome.fault f e :: rest))).api_endpoint = Option.none
  · rw [if_pos hapi]
    refine ⟨hmain.1, ?_, hmain.2.2⟩
    simp only [hmain.2.1]
    simp [initResult]
  · rw [if_neg hapi]
    refine ⟨hmain.1, ?_, hmain.2.2⟩
    simp only [hmain.2.1]
    simp [initResult]

/-- C3 witness: a timeout on the very first candidate is recorded as
status 408 with its message, leaving the test failed. -/
theorem claim_C3_witness :
    (test_api_endpoint "http://t" "Berlin" "standard" "T"
      [ProbeOutcome.fault, ProbeOutcome.fault, ProbeOutcome.response 200 Option.none]
      [HttpOutcome.fault Fault.timeout 2] 0).status_code = Option.some 408 ∧
    "Request timeout (>10 seconds)" ∈
      (test_api_endpoint "http://t" "Berlin" "standard" "T"
        [ProbeOutcome.fault, ProbeOutcome.fault, ProbeOutcome.response 200 Option.none]
        [HttpOutcome.fault Fault.timeout 2] 0).errors ∧
    (test_api_endpoint "http://t" "Berlin" "standard" "T"
      [ProbeOutcome.fault, ProbeOutcome.fault, ProbeOutcome.response 200 Option.none]
      [HttpOutcome.fault Fault.timeout 2] 0).passed = false := by
  have h := claim_C3_fault_mapping "http://t" "Berlin" "standard" "T"
    [ProbeOutcome.fault, ProbeOutcome.fault, ProbeOutcome.response 200 Option.none] 0
    [] Fault.timeout 2 [] rfl (by simp) (Or.inl rfl) (by decide)
  exact ⟨h.1, h.2.1, h.2.2⟩

/-- C4: under test type `"invalid"` with the prober affirmative, a first
candidate answering 400, 404 or 422 is a definitive pass: the result is
marked passed with the confirmation message appended, and the remaining
candidate outcomes are never consulted (the run equals the run given only
that first outcome). -/
theorem claim_C4_invalid_rejection_first_definitive
    (api_base_url city timestamp : String)
    (probeOuts : List ProbeOutcome) (mockElapsedMs : ℚ) (status : Nat)
    (body : Option PyVal) (text : String) (e : ℚ) (rest : List HttpOutcome)
    (hprobe : check_for_weather_endpoints probeOuts = true)
    (hstatus : status = 400 ∨ status = 404 ∨ status = 422) :
    (test_api_endpoint api_base_url city "invalid" timestamp probeOuts
        (HttpOutcome.response status body text e :: rest) mockElapsedMs).passed = true ∧
    ("Correctly returned error " ++ toString status ++ " for invalid input") ∈
      (test_api_endpoint api_base_url city "invalid" timestamp probeOuts
        (HttpOutcome.response status body text e :: rest) mockElapsedMs).errors ∧
    test_api_endpoint api_base_url city "invalid" timestamp probeOuts
        (HttpOutcome.response status body text e :: rest) mockElapsedMs =
      test_api_endpoint api_base_url city "invalid" timestamp probeOuts
        [HttpOutcome.response status body text e] mockElapsedMs := by
  have hne200 : ¬ (status = 200) := by
    rcases hstatus with h | h | h <;> omega
  have hinv : (status = 404 ∨ status = 400 ∨ status = 422) ∧
      ("invalid" : String) = "invalid" := by
    refine ⟨?_, rfl⟩
    tauto
  have hstep : ∀ tail : List HttpOutcome,
      endpointLoop "invalid" (initResult city "invalid" timestamp)
        ((possible_endpoints api_base_url city).zip
          (HttpOutcome.response status body text e :: tail)) =
      { recordAttempt (initResult city "invalid" timestamp)
          (api_base_url ++ "/api/weather/" ++ city) status e with
        passed := true,
        errors := (recordAttempt (initResult city "invalid" timestamp)
            (api_base_url ++ "/api/weather/" ++ city) status e).errors ++
          ["Correctly returned error " ++ toString status ++ " for invalid input"] } := by
    intro tail
    rw [show (possible_endpoints api_base_url city).zip
        (HttpOutcome.response status body text e :: tail) =
      (api_base_url ++ "/api/weather/" ++ city, HttpOutcome.response status body text e) ::
        ((possible_endpoints api_base_url city).tail.zip tail) from rfl]
    simp only [endpointLoop]
    rw [if_neg hne200]
    rw [if_pos (show (status = 404 ∨ status = 400 ∨ status = 422) ∧ True from
      ⟨hinv.1, trivial⟩)]
  simp only [test_api_endpoint]
  have hcheck : ¬ (check_for_weather_endpoints probeOuts = false) := by simp [hprobe]
  simp only [if_neg hcheck]
  rw [hstep rest, hstep []]
  rw [if_neg (by simp [recordAttempt])]
  exact ⟨rfl, by simp [recordAttempt, initResult], rfl⟩

/-- C4 witness: a first-candidate 404 under test type `"invalid"` passes with
the confirmation message, and further outcomes are ignored. -/
theorem claim_C4_witness :
    (test_api_endpoint "http://t" "" "invalid" "T"
      [ProbeOutcome.fault, ProbeOutcome.fault, ProbeOutcome.response 404 Option.none]
      [HttpOutcome.response 404 Option.none "nf" 7, HttpOutcome.fault Fault.timeout 9]
      0).passed = true ∧
    ("Correctly returned error " ++ toString 404 ++ " for invalid input") ∈
      (test_api_endpoint "http://t" "" "invalid" "T"
        [ProbeOutcome.fault, ProbeOutcome.fault, ProbeOutcome.response 404 Option.none]
        [HttpOutcome.response 404 Option.none "nf" 7, HttpOutcome.fault Fault.timeout 9]
        0).errors ∧
    test_api_endpoint "http://t" "" "invalid" "T"
        [ProbeOutcome.fault, ProbeOutcome.fault, ProbeOutcome.response 404 Option.none]
        [HttpOutcome.response 404 Option.none "nf" 7, HttpOutcome.fault Fault.timeout 9] 0 =
      test_api_endpoint "http://t" "" "invalid" "T"
        [ProbeOutcome.fault, ProbeOutcome.fault, ProbeOutcome.response 404 Option.none]
        [HttpOutcome.response 404 Option.none "nf" 7] 0 := by
  have h := claim_C4_invalid_rejection_first_definitive "http://t" "" "T"
    [ProbeOutcome.fault, ProbeOutcome.fault, ProbeOutcome.response 404 Option.none] 0
    404 Option.none "nf" 7 [HttpOutcome.fault Fault.timeout 9] rfl
    (Or.inr (Or.inl rfl))
  exact ⟨h.1, h.2.1, h.2.2⟩

/-- C9 counterexample: the exception handlers of the dispatcher never update
`response_time_ms`, so a run whose first candidate attempt dies with a
connection failure observed 1000 ms into the dispatch returns
`response_time_ms = 0`, not the rounded elapsed time at finalization the
claim demands. -/
theorem claim_C9_counterexample :
    (test_api_endpoint "http://t" "London" "standard" "T"
      [ProbeOutcome.fault, ProbeOutcome.fault,
       ProbeOutcome.response 200 Option.none, ProbeOutcome.fault]
      [HttpOutcome.fault Fault.connError 1000] 0).response_time_ms = 0 ∧
    pyRound2 (outcomeElapsed (HttpOutcome.fault Fault.connError 1000)) = 1000 ∧
    (0 : ℚ) ≠ 1000 := by
  refine ⟨by decide, ?_, by norm_num⟩
  norm_num [outcomeElapsed, pyRound2, roundHalfEven]


/-- After any run of 404-continue responses, a transport fault finalizes the
loop with `response_time_ms` still holding the value recorded by the most
recent response — the accumulated value when the fault hits the first
attempt: the exception handlers never touch the field. -/
theorem endpointLoop_prefix404_fault_rt (test_type : String) (f : Fault) (e : ℚ) :
    ∀ (pre : List HttpOutcome) (eps : List String) (rest : List HttpOutcome)
      (r : TestResult),
      (∀ o ∈ pre, ∃ b t el, o = HttpOutcome.response 404 b t el) →
      (pre = [] ∨ test_type ≠ "invalid") →
      pre.length < eps.length →
      (endpointLoop test_type r
        (eps.zip (pre ++ HttpOutcome.fault f e :: rest))).response_time_ms =
        (match pre.getLast? with
         | Option.none => r.response_time_ms
         | Option.some o => pyRound2 (outcomeElapsed o)) := by
  intro pre
  induction pre with
  | nil =>
    intro eps rest r _ _ hlen
    cases eps with
    | nil => simp at hlen
    | cons e0 eps' =>
      simp only [List.nil_append, List.zip_cons_cons]
      rw [endpointLoop_fault]
      rfl
  | cons o pre' ih =>
    intro eps rest r hpre htt hlen
    obtain ⟨b, t, el, rfl⟩ := hpre o (List.mem_cons_self o pre')
    have htt' : test_type ≠ "invalid" := by
      cases htt with
      | inl hcontra => exact absurd hcontra (by simp)
      | inr h => exact h
    cases eps with
    | nil => simp at hlen
    | cons e0 eps' =>
      simp only [List.cons_append, List.zip_cons_cons]
      rw [endpointLoop_404_continue test_type htt']
      have hrec := ih eps' rest (recordAttempt r e0 404 el)
        (fun o ho => hpre o (List.mem_cons_of_mem _ ho)) (Or.inr htt')
        (by simpa using hlen)
      cases pre' with
      | nil => simpa [recordAttempt, outcomeElapsed] using hrec
      | cons o2 pre'' =>
        rw [hrec, List.getLast?_cons_cons]
        rcases hl : (o2 :: pre'').getLast? with _ | o3
        · exact absurd hl (by simp)
        · simp only [hl]

/-- After any run of 404-continue responses, a terminal response — any status
other than a 404-continue, so either a non-404 status or a 404 under test
type `"invalid"` — finalizes the loop with `response_time_ms` equal to the
rounded elapsed reading of that response, whichever branch (JSON success,
parse failure, invalid-rejection, other-status) handles it. -/
theorem endpointLoop_prefix404_response_rt (test_type : String)
    (status : Nat) (body : Option PyVal) (text : String) (e : ℚ)
    (hterm : status ≠ 404 ∨ test_type = "invalid") :
    ∀ (pre : List HttpOutcome) (eps : List String) (rest : List HttpOutcome)
      (r : TestResult),
      (∀ o ∈ pre, ∃ b t el, o = HttpOutcome.response 404 b t el) →
      (pre = [] ∨ test_type ≠ "invalid") →
      pre.length < eps.length →
      (endpointLoop test_type r
        (eps.zip (pre ++ HttpOutcome.response status body text e :: rest))).response_time_ms =
        pyRound2 e := by
  intro pre
  induction pre with
  | nil =>
    intro eps rest r _ _ hlen
    cases eps with
    | nil => simp at hlen
    | cons e0 eps' =>
      simp only [List.nil_append, List.zip_cons_cons]
      simp only [endpointLoop]
      by_cases h200 : status = 200
      · subst h200
        rw [if_pos rfl]
        cases body with
        | some data => simp [recordAttempt]
        | none => simp [recordAttempt]
      · rw [if_neg h200]
        by_cases hinv : (status = 404 ∨ status = 400 ∨ status = 422) ∧
            test_type = "invalid"
        · rw [if_pos hinv]
          simp [recordAttempt]
        · have h404 : ¬ (status = 404) := by
            rcases hterm with h | h
            · exact h
            · exact fun h4 => hinv ⟨Or.inl h4, h⟩
          rw [if_neg hinv, if_neg h404]
          simp [recordAttempt]
  | cons o pre' ih =>
    intro eps rest r hpre htt hlen
    obtain ⟨b, t, el, rfl⟩ := hpre o (List.mem_cons_self o pre')
    have htt' : test_type ≠ "invalid" := by
      cases htt with
      | inl hcontra => exact absurd hcontra (by simp)
      | inr h => exact h
    cases eps with
    | nil => simp at hlen
    | cons e0 eps' =>
      simp only [List.cons_append, List.zip_cons_cons]
      rw [endpointLoop_404_continue test_type htt']
      exact ih eps' rest (recordAttempt r e0 404 el)
        (fun o ho => hpre o (List.mem_cons_of_mem _ ho)) (Or.inr htt')
        (by simpa using hlen)

/-- C9 amended: `response_time_ms` is nonnegative whenever the clock readings
are (so it is a finite number ≥ 0), and it equals the rounded elapsed time
recorded at the most recent HTTP response rather than at finalization: the
mock path records the elapsed reading taken at synthesis; a terminal response
— after any run of 404-continues — records `pyRound2` of its own elapsed
reading; and a transport fault — after any run of 404-continues — retains
the value of the most recent 404 response, the initial 0 when the fault hits
the first attempt, because the exception handlers never read the clock. -/
theorem claim_C9_amended_response_time
    (api_base_url city test_type timestamp : String)
    (probeOuts : List ProbeOutcome) (outs : List HttpOutcome) (mockElapsedMs : ℚ) :
    ((0 ≤ mockElapsedMs → (∀ o ∈ outs, 0 ≤ outcomeElapsed o) →
       0 ≤ (test_api_endpoint api_base_url city test_type timestamp probeOuts outs
         mockElapsedMs).response_time_ms) ∧
     (check_for_weather_endpoints probeOuts = false →
       (test_api_endpoint api_base_url city test_type timestamp probeOuts outs
         mockElapsedMs).response_time_ms = pyRound2 mockElapsedMs) ∧
     (∀ pre f e rest, check_for_weather_endpoints probeOuts = true →
       outs = pre ++ HttpOutcome.fault f e :: rest →
       (∀ o ∈ pre, ∃ b t el, o = HttpOutcome.response 404 b t el) →
       (pre = [] ∨ test_type ≠ "invalid") →
       pre.length < 4 →
       (test_api_endpoint api_base_url city test_type timestamp probeOuts outs
         mockElapsedMs).response_time_ms =
         (match pre.getLast? with
          | Option.none => 0
          | Option.some o => pyRound2 (outcomeElapsed o))) ∧
     (∀ pre status body text e rest, check_for_weather_endpoints probeOuts = true →
       outs = pre ++ HttpOutcome.response status body text e :: rest →
       (∀ o ∈ pre, ∃ b t el, o = HttpOutcome.response 404 b t el) →
       (pre = [] ∨ test_type ≠ "invalid") →
       pre.length < 4 →
       (status ≠ 404 ∨ test_type = "invalid") →
       (test_api_endpoint api_base_url city test_type timestamp probeOuts outs
         mockElapsedMs).response_time_ms = pyRound2 e)) := by
  refine ⟨?_, ?_, ?_, ?_⟩
  · intro hm hall
    by_cases hprobe : check_for_weather_endpoints probeOuts = false
    · have hmock : test_api_endpoint api_base_url city test_type timestamp probeOuts outs
          mockElapsedMs = create_mock_test_result api_base_url city test_type timestamp
          mockElapsedMs := by
        simp [test_api_endpoint, hprobe]
      rw [hmock]
      unfold create_mock_test_result
      split_ifs <;> exact pyRound2_nonneg _ hm
    · simp only [test_api_endpoint]
      rw [if_neg hprobe]
      have hloop : 0 ≤ (endpointLoop test_type (initResult city test_type timestamp)
          ((possible_endpoints api_base_url city).zip outs)).response_time_ms :=
        endpointLoop_rt_nonneg test_type _ _ (le_refl 0)
          (fun p hp => hall p.2 (List.of_mem_zip hp).2)
      split_ifs <;> exact hloop
  · intro hprobe
    have hmock : test_api_endpoint api_base_url city test_type timestamp probeOuts outs
        mockElapsedMs = create_mock_test_result api_base_url city test_type timestamp
        mockElapsedMs := by
      simp [test_api_endpoint, hprobe]
    rw [hmock]
    unfold create_mock_test_result
    split_ifs <;> rfl
  · rintro pre f e rest hprobe rfl hpre htt hlen
    have hmain := endpointLoop_prefix404_fault_rt test_type f e pre
      (possible_endpoints api_base_url city) rest (initResult city test_type timestamp)
      hpre htt (by simpa [possible_endpoints] using hlen)
    simp only [test_api_endpoint]
    rw [if_neg (by simp [hprobe])]
    split_ifs <;>
      (rcases hl : pre.getLast? with _ | o <;>
        simp only [hl] at hmain ⊢ <;>
        simpa [initResult] using hmain)
  · rintro pre status body text e rest hprobe rfl hpre htt hlen hterm
    have hmain := endpointLoop_prefix404_response_rt test_type status body text e hterm
      pre (possible_endpoints api_base_url city) rest (initResult city test_type timestamp)
      hpre htt (by simpa [possible_endpoints] using hlen)
    simp only [test_api_endpoint]
    rw [if_neg (by simp [hprobe])]
    split_ifs <;> simpa using hmain

/-- C9 witness: the amended behaviour at concrete runs — a nonnegative value
on a fault run, the mock path recording its synthesis-time reading, a fault
after a 404-continue retaining that 404 response's rounded 30 ms, and a
first-candidate 404 under test type `"invalid"` (a terminal response)
recording its own rounded 7 ms. -/
theorem claim_C9_witness :
    0 ≤ (test_api_endpoint "http://w" "Rome" "standard" "T"
      [ProbeOutcome.fault, ProbeOutcome.fault, ProbeOutcome.response 400 Option.none]
      [HttpOutcome.response 404 Option.none "" 30,
       HttpOutcome.fault (Fault.otherError "boom") 99] 0).response_time_ms ∧
    (test_api_endpoint "http://w" "Rome" "standard" "T" [] [] 12).response_time_ms =
      pyRound2 12 ∧
    (test_api_endpoint "http://w" "Rome" "standard" "T"
      [ProbeOutcome.fault, ProbeOutcome.fault, ProbeOutcome.response 400 Option.none]
      [HttpOutcome.response 404 Option.none "" 30,
       HttpOutcome.fault (Fault.otherError "boom") 99] 0).response_time_ms =
      pyRound2 30 ∧
    (test_api_endpoint "http://w" "" "invalid" "T"
      [ProbeOutcome.fault, ProbeOutcome.fault, ProbeOutcome.response 400 Option.none]
      [HttpOutcome.response 404 Option.none "" 7] 0).response_time_ms =
      pyRound2 7 := by
  have h1 := claim_C9_amended_response_time "http://w" "Rome" "standard" "T"
    [ProbeOutcome.fault, ProbeOutcome.fault, ProbeOutcome.response 400 Option.none]
    [HttpOutcome.response 404 Option.none "" 30,
     HttpOutcome.fault (Fault.otherError "boom") 99] 0
  have h2 := claim_C9_amended_response_time "http://w" "Rome" "standard" "T" [] [] 12
  have h3 := claim_C9_amended_response_time "http://w" "" "invalid" "T"
    [ProbeOutcome.fault, ProbeOutcome.fault, ProbeOutcome.response 400 Option.none]
    [HttpOutcome.response 404 Option.none "" 7] 0
  have hpre1 : ∀ o ∈ [HttpOutcome.response 404 Option.none "" 30],
      ∃ b t el, o = HttpOutcome.response 404 b t el := by
    intro o ho
    rw [List.mem_singleton] at ho
    subst ho
    exact ⟨Option.none, "", 30, rfl⟩
  have hc : (test_api_endpoint "http://w" "Rome" "standard" "T"
      [ProbeOutcome.fault, ProbeOutcome.fault, ProbeOutcome.response 400 Option.none]
      [HttpOutcome.response 404 Option.none "" 30,
       HttpOutcome.fault (Fault.otherError "boom") 99] 0).response_time_ms =
      pyRound2 30 := by
    simpa using h1.2.2.1 [HttpOutcome.response 404 Option.none "" 30]
      (Fault.otherError "boom") 99 [] rfl rfl hpre1 (Or.inr (by decide)) (by decide)
  refine ⟨h1.1 (by norm_num) ?_, h2.2.1 rfl, hc,
    h3.2.2.2 [] 404 Option.none "" 7 [] rfl rfl (by simp) (Or.inl rfl) (by decide)
      (Or.inr rfl)⟩
  intro o ho
  simp only [List.mem_cons, List.mem_singleton, List.not_mem_nil, or_false] at ho
  rcases ho with rfl | rfl <;> norm_num [outcomeElapsed]
